import Mathlib

/-!
Verification of the Aegent multi-agent demo scripts.

The embedding below translates the deterministic parts of the JavaScript
sources (`multi-agent-no-tools.js` and its companion script): the keyword
router `MultiAgentSystem.processQuery`, the `SharedMemory` class (a JS `Map`
plus an append-only conversation history), the `communicate_with_agent` and
`access_memory` tools, and the top-level error handler of `main`.

Calls into the external SDK (`run(agent, prompt)` / `agent.run(prompt)`) are
modelled by an oracle function passed as a parameter; each awaited call is
recorded as one atomic entry of an invocation trace, in program order.
-/

namespace Aegent

/-- ASCII lowering of one character, the fragment of JS `toLowerCase`
relevant to the router (all tested keywords are ASCII). -/
def lowerChar (c : Char) : Char :=
  if 'A' ≤ c ∧ c ≤ 'Z' then Char.ofNat (c.toNat + 32) else c

/-- Model of `query.toLowerCase()` on the characters of the string. -/
def jsToLower (s : String) : String :=
  ⟨s.data.map lowerChar⟩

/-- Whether `pat` occurs at the start of `l` (character lists). -/
def strStartsWith : List Char → List Char → Bool
  | [], _ => true
  | _ :: _, [] => false
  | p :: ps, c :: cs => p == c && strStartsWith ps cs

/-- Whether `pat` occurs as a contiguous substring of `l`. -/
def strContainsAux (pat : List Char) : List Char → Bool
  | [] => pat.isEmpty
  | c :: cs => strStartsWith pat (c :: cs) || strContainsAux pat cs

/-- Model of JS `hay.includes(needle)`. -/
def sContains (hay needle : String) : Bool :=
  strContainsAux needle.data hay.data

/-- Model of the JS regex test `/\d/.test(s)`: `\d` matches exactly the
ASCII digits `0`-`9`. -/
def hasDigit (s : String) : Bool :=
  s.data.any (fun c => decide ('0' ≤ c) && decide (c ≤ '9'))

/-- The guard of the history branch of `processQuery`
(`multi-agent-no-tools.js` line 57). -/
def historyMatch (q : String) : Bool :=
  sContains (jsToLower q) "history" || sContains (jsToLower q) "historical"

/-- The guard of the science branch of `processQuery` (line 61). -/
def scienceMatch (q : String) : Bool :=
  sContains (jsToLower q) "science" || sContains (jsToLower q) "scientific"

/-- The guard of the math branch of `processQuery` (lines 65-66). -/
def mathMatch (q : String) : Bool :=
  sContains (jsToLower q) "math" || sContains (jsToLower q) "calculate" ||
    sContains (jsToLower q) "equation" || hasDigit q

/-- The four entries of `this.agents` in `MultiAgentSystem`. -/
inductive AgentKey where
  | history
  | science
  | math
  | coordinator
  deriving DecidableEq, Repr

/-- One awaited SDK call `run(agent, prompt)`: which agent was invoked and
with which prompt. -/
structure Invocation where
  agent : AgentKey
  prompt : String
  deriving DecidableEq, Repr

/-- The record returned by `processQuery` (lines 75-79). `agentResponses`
is the JS object `responses` as its insertion-ordered key/value list. -/
structure QueryResult where
  query : String
  coordinatorAnalysis : String
  agentResponses : List (String × String)
  deriving DecidableEq, Repr

/-- The interpolated prompt of the coordinator analysis call (line 49). -/
def analysisPrompt (q : String) : String :=
  "Analyze this query and determine which agent(s) should handle it: \"" ++ q ++ "\""

/-- `MultiAgentSystem.processQuery` (lines 44-80). The SDK call `run` is an
oracle parameter; the second component is the trace of awaited invocations
in program order. Each `if` of the source appends to `responses` and makes
one awaited call; the final `Object.keys(responses).length === 0` test is
`isEmpty` on the accumulated list. -/
def processQuery (runAgent : AgentKey → String → String) (q : String) :
    QueryResult × List Invocation :=
  let coordinatorResponse := runAgent AgentKey.coordinator (analysisPrompt q)
  let trace0 := [Invocation.mk AgentKey.coordinator (analysisPrompt q)]
  let responses0 : List (String × String) := []
  let responses1 := if historyMatch q then
    responses0 ++ [("history", runAgent AgentKey.history q)] else responses0
  let trace1 := if historyMatch q then
    trace0 ++ [Invocation.mk AgentKey.history q] else trace0
  let responses2 := if scienceMatch q then
    responses1 ++ [("science", runAgent AgentKey.science q)] else responses1
  let trace2 := if scienceMatch q then
    trace1 ++ [Invocation.mk AgentKey.science q] else trace1
  let responses3 := if mathMatch q then
    responses2 ++ [("math", runAgent AgentKey.math q)] else responses2
  let trace3 := if mathMatch q then
    trace2 ++ [Invocation.mk AgentKey.math q] else trace2
  let responses4 := if responses3.isEmpty then
    responses3 ++ [("coordinator", runAgent AgentKey.coordinator q)] else responses3
  let trace4 := if responses3.isEmpty then
    trace3 ++ [Invocation.mk AgentKey.coordinator q] else trace3
  (QueryResult.mk q coordinatorResponse responses4, trace4)

/-- The set of named buckets the router assigns a query to, in test order. -/
def routeBuckets (q : String) : List String :=
  (if historyMatch q then ["history"] else []) ++
    (if scienceMatch q then ["science"] else []) ++
    (if mathMatch q then ["math"] else []) ++
    (if historyMatch q = false ∧ scienceMatch q = false ∧ mathMatch q = false
      then ["coordinator"] else [])

theorem processQuery_trace_eq (runAgent : AgentKey → String → String) (q : String) :
    (processQuery runAgent q).2 =
      [Invocation.mk AgentKey.coordinator (analysisPrompt q)] ++
        (if historyMatch q then [Invocation.mk AgentKey.history q] else []) ++
        (if scienceMatch q then [Invocation.mk AgentKey.science q] else []) ++
        (if mathMatch q then [Invocation.mk AgentKey.math q] else []) ++
        (if historyMatch q = false ∧ scienceMatch q = false ∧ mathMatch q = false
          then [Invocation.mk AgentKey.coordinator q] else []) := by
  unfold processQuery
  cases hh : historyMatch q <;> cases hs : scienceMatch q <;> cases hm : mathMatch q <;>
    simp [hh, hs, hm]

theorem processQuery_responses_eq (runAgent : AgentKey → String → String) (q : String) :
    (processQuery runAgent q).1.agentResponses =
      (if historyMatch q then [("history", runAgent AgentKey.history q)] else []) ++
        (if scienceMatch q then [("science", runAgent AgentKey.science q)] else []) ++
        (if mathMatch q then [("math", runAgent AgentKey.math q)] else []) ++
        (if historyMatch q = false ∧ scienceMatch q = false ∧ mathMatch q = false
          then [("coordinator", runAgent AgentKey.coordinator q)] else []) := by
  unfold processQuery
  cases hh : historyMatch q <;> cases hs : scienceMatch q <;> cases hm : mathMatch q <;>
    simp [hh, hs, hm]

/-- One entry of `conversationHistory`, pushed by `addToHistory`
(companion script, `SharedMemory.addToHistory`): the agent name, the message
(whose shape varies by caller, hence the type parameter), and the ISO
timestamp string. -/
structure HistoryEntry (μ : Type) where
  agent : String
  message : μ
  timestamp : String
  deriving DecidableEq, Repr

/-- `SharedMemory`: `data` models the JS `Map` as its insertion-ordered
entry list (a JS `Map` keeps one entry per key), `conversationHistory` the
array of pushed entries. `α` is the stored value type, `μ` the history
message type. -/
structure SharedMemory (α μ : Type) where
  data : List (String × α)
  conversationHistory : List (HistoryEntry μ)
  deriving DecidableEq, Repr

/-- JS `Map.prototype.set`: update the value in place when the key is
already present (keeping its position), otherwise append a new entry. -/
def mapSet (k : String) (v : α) : List (String × α) → List (String × α)
  | [] => [(k, v)]
  | (k1, v1) :: rest =>
      if k1 = k then (k1, v) :: rest else (k1, v1) :: mapSet k v rest

/-- JS `Map.prototype.get`: the stored value, or `none` for `undefined`. -/
def mapGet (k : String) : List (String × α) → Option α
  | [] => none
  | (k1, v1) :: rest => if k1 = k then some v1 else mapGet k rest

/-- `SharedMemory.set`. -/
def SharedMemory.set (m : SharedMemory α μ) (k : String) (v : α) :
    SharedMemory α μ :=
  { m with data := mapSet k v m.data }

/-- `SharedMemory.get`. -/
def SharedMemory.get (m : SharedMemory α μ) (k : String) : Option α :=
  mapGet k m.data

/-- `SharedMemory.addToHistory`: pushes one entry at the end of
`conversationHistory`; the `new Date().toISOString()` value is the external
clock input `ts`. -/
def SharedMemory.addToHistory (m : SharedMemory α μ) (agent : String)
    (message : μ) (ts : String) : SharedMemory α μ :=
  { m with conversationHistory :=
      m.conversationHistory ++ [HistoryEntry.mk agent message ts] }

/-- `SharedMemory.getHistory`. -/
def SharedMemory.getHistory (m : SharedMemory α μ) : List (HistoryEntry μ) :=
  m.conversationHistory

/-- The `{ message, response }` object stored in the history by the
`communicate_with_agent` tool. -/
structure MsgRec where
  message : String
  response : String
  deriving DecidableEq, Repr

/-- The property names an object literal such as `agentSystem.agents`
inherits from `Object.prototype`: bracket lookup under one of these names
yields a truthy value (a built-in function, or the prototype object itself
for the `__proto__` accessor) even though the name is not a key of the
map, and none of these values has a callable `run` member. -/
def objectProtoProps : List String :=
  ["constructor", "hasOwnProperty", "isPrototypeOf", "propertyIsEnumerable",
    "toLocaleString", "toString", "valueOf", "__proto__",
    "__defineGetter__", "__defineSetter__", "__lookupGetter__",
    "__lookupSetter__"]

/-- The possible results of JS bracket lookup on the plain agent object:
`undefined` (falsy), a truthy property inherited from `Object.prototype`
(with no `run` method), or an own-property agent object (`δ`). -/
inductive JsProp (δ : Type) where
  | undef
  | protoProp
  | own (a : δ)
  deriving DecidableEq

/-- JS property resolution for `agentSystem.agents[k]`: an own property
shadows the prototype chain; otherwise the lookup falls through to
`Object.prototype`; otherwise it is `undefined`. `agents` gives the own
(already lowercased) keys of the agent map. -/
def jsIndex (agents : String → Option δ) (k : String) : JsProp δ :=
  match agents k with
  | some a => JsProp.own a
  | none => if k ∈ objectProtoProps then JsProp.protoProp else JsProp.undef

/-- `communicate_with_agent.execute`. The bracket lookup is `jsIndex`; only
the `undefined` result is falsy, so only it takes the `if (!target)` early
return. On a truthy inherited `Object.prototype` property, `target.run` is
not a function and the call throws a `TypeError` (the `Except.error` case)
before any history write. `runA` is the SDK oracle for
`target.run(message)` on a real agent. Returns the outcome (reply string,
or the thrown error) paired with the shared memory after the call. -/
def communicateExec (agents : String → Option δ) (runA : δ → String → String)
    (targetAgent message : String) (m : SharedMemory α MsgRec) (ts : String) :
    Except String String × SharedMemory α MsgRec :=
  match jsIndex agents (jsToLower targetAgent) with
  | JsProp.undef =>
      (Except.ok ("Error: Agent \"" ++ targetAgent ++ "\" not found"), m)
  | JsProp.protoProp =>
      (Except.error ("TypeError: target.run is not a function"), m)
  | JsProp.own target =>
      let response := runA target message
      (Except.ok ("Response from " ++ targetAgent ++ ": " ++ response),
        m.addToHistory targetAgent (MsgRec.mk message response) ts)

/-- The `action` enum of the `access_memory` tool schema. -/
inductive MemAction where
  | read
  | write
  deriving DecidableEq, Repr

/-- The JS template fragment for a possibly-`undefined` string value. -/
def jsShow : Option String → String
  | none => "undefined"
  | some v => v

/-- The JS fallback expression applied by the read action of the memory
tool (a logical-or with the not-found default) on a map whose
values have type `string | undefined`: a stored `undefined`, a stored empty
string and an absent key are all falsy. -/
def jsOrNotFound : Option (Option String) → String
  | none => "not found"
  | some none => "not found"
  | some (some v) => if v = "" then "not found" else v

/-- `access_memory.execute`: the input schema of the tool makes `value`
optional, so the value type of the map is `Option String`. Returns the
reply string and the shared memory after the call. -/
def memoryExec (action : MemAction) (key : String) (value : Option String)
    (m : SharedMemory (Option String) μ) :
    String × SharedMemory (Option String) μ :=
  match action with
  | MemAction.read =>
      ("Memory value for \"" ++ key ++ "\": " ++ jsOrNotFound (m.get key), m)
  | MemAction.write =>
      ("Stored \"" ++ jsShow value ++ "\" with key \"" ++ key ++ "\"",
        m.set key value)

/-- The three `console.log` lines printed by `main` when the caught error
message mentions the API key (`multi-agent-no-tools.js` lines 113-115). -/
def keyInstructions : List String :=
  ["\n💡 To run this example, you need to set your OpenAI API key:",
    "export OPENAI_API_KEY=\"your-api-key-here\"",
    "Or create a .env file with: OPENAI_API_KEY=your-api-key-here"]

/-- What `main` did: the console lines written by its catch block, the
error it let escape (always `none`: the catch block rethrows nothing), and
how many times it started `runInteractiveSession`. -/
structure MainResult where
  printed : List String
  propagated : Option String
  sessionAttempts : Nat
  deriving DecidableEq, Repr

/-- `main` (lines 106-118): one `try` around a single session run; the
`catch` prints the error message, and additionally the setup instructions
when the message contains `OPENAI_API_KEY`. The outcome of the session (normal
return, or a thrown error with message `e`) is the parameter. -/
def mainModel (sessionOutcome : Except String Unit) : MainResult :=
  match sessionOutcome with
  | Except.ok _ => MainResult.mk [] none 1
  | Except.error e =>
      MainResult.mk
        (["❌ Error: " ++ e] ++
          (if sContains e ("OPENAI_API_KEY") then keyInstructions else []))
        none 1

/-- C1: for every query, `processQuery` invokes the History Expert iff the
lowercased query contains `history` or `historical`, and the Science Expert
iff it contains `science` or `scientific`; the response of each matching
specialist is stored under the corresponding key of `agentResponses`, and the
returned record carries the query and those responses back to the caller. -/
theorem history_science_routing (runAgent : AgentKey → String → String) (q : String) :
    ((Invocation.mk AgentKey.history q ∈ (processQuery runAgent q).2) ↔
      (sContains (jsToLower q) "history" || sContains (jsToLower q) "historical") = true)
    ∧ ((Invocation.mk AgentKey.science q ∈ (processQuery runAgent q).2) ↔
      (sContains (jsToLower q) "science" || sContains (jsToLower q) "scientific") = true)
    ∧ (mapGet ("history") (processQuery runAgent q).1.agentResponses =
      if historyMatch q then some (runAgent AgentKey.history q) else none)
    ∧ (mapGet ("science") (processQuery runAgent q).1.agentResponses =
      if scienceMatch q then some (runAgent AgentKey.science q) else none)
    ∧ (processQuery runAgent q).1.query = q := by
  have ht := processQuery_trace_eq runAgent q
  have hr := processQuery_responses_eq runAgent q
  have hq : (processQuery runAgent q).1.query = q := rfl
  refine ⟨?_, ?_, ?_, ?_, hq⟩
  · rw [show (sContains (jsToLower q) "history" || sContains (jsToLower q) "historical")
        = historyMatch q from rfl, ht]
    cases hh : historyMatch q <;> cases hs : scienceMatch q <;> cases hm : mathMatch q <;>
      simp [hh, hs, hm, analysisPrompt]
  · rw [show (sContains (jsToLower q) "science" || sContains (jsToLower q) "scientific")
        = scienceMatch q from rfl, ht]
    cases hh : historyMatch q <;> cases hs : scienceMatch q <;> cases hm : mathMatch q <;>
      simp [hh, hs, hm, analysisPrompt]
  · rw [hr]
    cases hh : historyMatch q <;> cases hs : scienceMatch q <;> cases hm : mathMatch q <;>
      simp [hh, hs, hm, mapGet]
  · rw [hr]
    cases hh : historyMatch q <;> cases hs : scienceMatch q <;> cases hm : mathMatch q <;>
      simp [hh, hs, hm, mapGet]

/-- C2: for every query, `processQuery` invokes the Math Expert iff the
lowercased query contains `math`, `calculate` or `equation`, or the raw
query contains an ASCII decimal digit; the response is stored under the
`math` key of `agentResponses`. -/
theorem math_routing (runAgent : AgentKey → String → String) (q : String) :
    ((Invocation.mk AgentKey.math q ∈ (processQuery runAgent q).2) ↔
      (sContains (jsToLower q) "math" || sContains (jsToLower q) "calculate" ||
        sContains (jsToLower q) "equation" || hasDigit q) = true)
    ∧ (mapGet ("math") (processQuery runAgent q).1.agentResponses =
      if mathMatch q then some (runAgent AgentKey.math q) else none) := by
  have ht := processQuery_trace_eq runAgent q
  have hr := processQuery_responses_eq runAgent q
  refine ⟨?_, ?_⟩
  · rw [show (sContains (jsToLower q) "math" || sContains (jsToLower q) "calculate" ||
        sContains (jsToLower q) "equation" || hasDigit q) = mathMatch q from rfl, ht]
    cases hh : historyMatch q <;> cases hs : scienceMatch q <;> cases hm : mathMatch q <;>
      simp [hh, hs, hm, analysisPrompt]
  · rw [hr]
    cases hh : historyMatch q <;> cases hs : scienceMatch q <;> cases hm : mathMatch q <;>
      simp [hh, hs, hm, mapGet]

/-- C3: the invocation trace of `processQuery` is exactly: the coordinator
analysis call first, then — the tests applied in the fixed order history,
science, math — one awaited call per matching specialist, then the
coordinator fallback when nothing matched. Each trace entry is one atomic
awaited call, so the calls are strictly sequential and never overlap. -/
theorem processQuery_sequential (runAgent : AgentKey → String → String) (q : String) :
    (processQuery runAgent q).2 =
      [Invocation.mk AgentKey.coordinator (analysisPrompt q)] ++
        (if historyMatch q then [Invocation.mk AgentKey.history q] else []) ++
        (if scienceMatch q then [Invocation.mk AgentKey.science q] else []) ++
        (if mathMatch q then [Invocation.mk AgentKey.math q] else []) ++
        (if historyMatch q = false ∧ scienceMatch q = false ∧ mathMatch q = false
          then [Invocation.mk AgentKey.coordinator q] else []) :=
  processQuery_trace_eq runAgent q

/-- C7: the bucket assignment of the router is a deterministic pure
function of the query string: the keys of `agentResponses` equal
`routeBuckets q` whatever the SDK oracle answers, so two evaluations —
even against different oracle states — assign the same buckets. -/
theorem router_deterministic (r1 r2 : AgentKey → String → String) (q : String) :
    ((processQuery r1 q).1.agentResponses.map Prod.fst = routeBuckets q)
    ∧ ((processQuery r2 q).1.agentResponses.map Prod.fst =
      (processQuery r1 q).1.agentResponses.map Prod.fst) := by
  have h1 := processQuery_responses_eq r1 q
  have h2 := processQuery_responses_eq r2 q
  rw [h1, h2]
  unfold routeBuckets
  cases hh : historyMatch q <;> cases hs : scienceMatch q <;> cases hm : mathMatch q <;>
    simp [hh, hs, hm]

/-- C8: `agentResponses` is never empty: when none of the history, science
and math tests match, the coordinator is invoked on the raw query and its
response is stored under the `coordinator` key. -/
theorem coordinator_fallback (runAgent : AgentKey → String → String) (q : String) :
    ((processQuery runAgent q).1.agentResponses ≠ [])
    ∧ (historyMatch q = false → scienceMatch q = false → mathMatch q = false →
      (processQuery runAgent q).1.agentResponses =
        [("coordinator", runAgent AgentKey.coordinator q)]) := by
  have hr := processQuery_responses_eq runAgent q
  constructor
  · cases hh : historyMatch q <;> cases hs : scienceMatch q <;> cases hm : mathMatch q <;>
      simp [hh, hs, hm] at hr <;> simp [hr]
  · intro hh hs hm
    simp [hh, hs, hm] at hr
    exact hr

/-- Witness for C8 at the query `hello`, which matches no test. -/
theorem coordinator_fallback_witness :
    (processQuery (fun _ _ => "ok") "hello").1.agentResponses =
      [("coordinator", "ok")] :=
  (coordinator_fallback (fun _ _ => "ok") "hello").2 (by decide) (by decide) (by decide)

theorem mapGet_mapSet_self (k : String) (v : α) (l : List (String × α)) :
    mapGet k (mapSet k v l) = some v := by
  induction l with
  | nil => simp [mapSet, mapGet]
  | cons p rest ih =>
      rcases p with ⟨k1, v1⟩
      by_cases h : k1 = k <;> simp [mapSet, mapGet, h, ih]

theorem mapSet_keys (k : String) (v : α) (l : List (String × α)) :
    (mapSet k v l).map Prod.fst =
      if k ∈ l.map Prod.fst then l.map Prod.fst else l.map Prod.fst ++ [k] := by
  induction l with
  | nil => simp [mapSet]
  | cons p rest ih =>
      rcases p with ⟨k1, v1⟩
      by_cases h : k1 = k
      · subst h
        simp [mapSet]
      · have h1 : ¬ k = k1 := fun hk => h hk.symm
        by_cases hk : k ∈ rest.map Prod.fst <;>
          simp [mapSet, h, h1, hk, ih]

/-- C4: the conversation history is an append-only log: `set` (and the pure
reads `get`/`getHistory`) leave `conversationHistory` unchanged,
`addToHistory` appends exactly one entry at the end — the existing entries
survive as the unchanged front of the log — and `getHistory` returns the
whole log in insertion order. -/
theorem sharedMemory_appendOnly (α μ : Type) (m : SharedMemory α μ)
    (k : String) (v : α) (a : String) (msg : μ) (ts : String) :
    ((m.set k v).conversationHistory = m.conversationHistory)
    ∧ ((m.addToHistory a msg ts).conversationHistory =
      m.conversationHistory ++ [HistoryEntry.mk a msg ts])
    ∧ ((m.addToHistory a msg ts).conversationHistory.take
        m.conversationHistory.length = m.conversationHistory)
    ∧ (m.getHistory = m.conversationHistory) := by
  refine ⟨rfl, rfl, ?_, rfl⟩
  simp [SharedMemory.addToHistory]

/-- C5: the key-value store keeps keys unique: `get` right after
`set k v` returns `v`, and `set` on an already-present key overwrites in
place — the key list is unchanged when the key was present and grows by
exactly that key otherwise, so no duplicate entry is ever created. -/
theorem sharedMemory_set_get (α μ : Type) (m : SharedMemory α μ)
    (k : String) (v : α) :
    ((m.set k v).get k = some v)
    ∧ ((m.set k v).data.map Prod.fst =
      if k ∈ m.data.map Prod.fst then m.data.map Prod.fst
      else m.data.map Prod.fst ++ [k])
    ∧ ((m.data.map Prod.fst).Nodup → ((m.set k v).data.map Prod.fst).Nodup) := by
  refine ⟨mapGet_mapSet_self k v m.data, mapSet_keys k v m.data, ?_⟩
  intro hnd
  rw [show (m.set k v).data = mapSet k v m.data from rfl, mapSet_keys k v m.data]
  by_cases hk : k ∈ m.data.map Prod.fst <;>
    simp [hk, List.nodup_append, hnd]

/-- Witness for C5: overwriting the present key `a` keeps the key list
`[a, b]` duplicate-free. -/
theorem sharedMemory_set_get_witness :
    (((SharedMemory.mk [("a", 1), ("b", 2)] [] : SharedMemory Nat Unit).set
        ("a") 3).data.map Prod.fst).Nodup :=
  (sharedMemory_set_get Nat Unit (SharedMemory.mk [("a", 1), ("b", 2)] [])
    "a" 3).2.2 (by decide)

/-- C6: every error thrown during the run is caught by `main` and printed,
never propagated; the API-key setup instructions are additionally printed
exactly when the message contains `OPENAI_API_KEY`; the session is started
once and never retried. -/
theorem main_error_handling (e : String) :
    ((mainModel (Except.error e)).propagated = none)
    ∧ ((mainModel (Except.error e)).sessionAttempts = 1)
    ∧ ((mainModel (Except.error e)).printed =
      ["❌ Error: " ++ e] ++
        (if sContains e ("OPENAI_API_KEY") then keyInstructions else [])) :=
  ⟨rfl, rfl, rfl⟩

/-- C9: an `access_memory` read reports `not found` not only for an absent
key but for any falsy stored value: in particular, right after writing the
empty string under `k`, reading `k` yields the not-found message, exactly
as an absent key or a stored `undefined` does. -/
theorem memory_read_falsy (μ : Type) (m : SharedMemory (Option String) μ)
    (k : String) :
    ((memoryExec MemAction.read k none
        ((memoryExec MemAction.write k (some ("")) m).2)).1 =
      "Memory value for \"" ++ k ++ "\": " ++ "not found")
    ∧ (m.get k = none →
      (memoryExec MemAction.read k none m).1 =
        "Memory value for \"" ++ k ++ "\": " ++ "not found")
    ∧ (m.get k = some none →
      (memoryExec MemAction.read k none m).1 =
        "Memory value for \"" ++ k ++ "\": " ++ "not found") := by
  refine ⟨?_, ?_, ?_⟩
  · have hset : (m.set k (some (""))).get k
        = some (some ("")) := mapGet_mapSet_self k (some ("")) m.data
    simp [memoryExec, hset, jsOrNotFound]
  · intro h
    simp [memoryExec, h, jsOrNotFound]
  · intro h
    simp [memoryExec, h, jsOrNotFound]

/-- Witness for C9: reading the key `x` from an empty shared memory. -/
theorem memory_read_falsy_witness :
    (memoryExec MemAction.read ("x") none
        (SharedMemory.mk [] [] : SharedMemory (Option String) Unit)).1 =
      "Memory value for \"" ++ "x" ++ "\": " ++ "not found" :=
  (memory_read_falsy Unit (SharedMemory.mk [] []) "x").2.1 rfl

/-- A four-key agent map standing in for `agentSystem.agents` of the
advanced script (own keys only), used by the C10 witness and
counterexample. -/
def demoAgents : String → Option Unit := fun k =>
  if k = "researcher" ∨ k = "analyst" ∨ k = "writer" ∨ k = "manager"
    then some () else none

/-- C10 counterexample: for `targetAgent` `Constructor` — whose lowercased
form `constructor` is not a key of the agent map — the bracket lookup hits
the inherited `Object.prototype` property, which is truthy, so the
`if (!target)` guard does not fire and the call throws a `TypeError`
instead of returning the agent-not-found error string (the history is
still left unchanged, as the throw happens before any write). -/
theorem communicate_proto_counterexample :
    (demoAgents (jsToLower "Constructor") = none)
    ∧ (communicateExec demoAgents (fun _ _ => "resp") "Constructor" "hi"
        (SharedMemory.mk [] [] : SharedMemory Nat MsgRec) "t0" =
      (Except.error ("TypeError: target.run is not a function"),
        SharedMemory.mk [] []))
    ∧ ((communicateExec demoAgents (fun _ _ => "resp") "Constructor" "hi"
        (SharedMemory.mk [] [] : SharedMemory Nat MsgRec) "t0").1 ≠
      Except.ok ("Error: Agent \"" ++ "Constructor" ++ "\" not found")) := by
  refine ⟨by decide, rfl, ?_⟩
  intro h
  exact Except.noConfusion h

/-- C10 (amended): when the lowercased `targetAgent` is neither a key of
the agent map nor a property name inherited from `Object.prototype`, the
lookup is `undefined` and `communicate_with_agent` returns the
agent-not-found error string, leaving the shared memory — its conversation
history included — completely unchanged; when the lowercased name is
absent from the map but is an inherited `Object.prototype` property, the
truthy lookup passes the guard and the call throws a `TypeError`, again
leaving the memory unchanged; an entry is appended to the history only on
the successful path. -/
theorem communicate_missing_agent (δ α : Type) (agents : String → Option δ)
    (runA : δ → String → String) (ta1 ta2 ta3 message : String)
    (m : SharedMemory α MsgRec) (ts : String) :
    (agents (jsToLower ta1) = none → jsToLower ta1 ∉ objectProtoProps →
      communicateExec agents runA ta1 message m ts =
        (Except.ok ("Error: Agent \"" ++ ta1 ++ "\" not found"), m))
    ∧ (agents (jsToLower ta3) = none → jsToLower ta3 ∈ objectProtoProps →
      communicateExec agents runA ta3 message m ts =
        (Except.error ("TypeError: target.run is not a function"), m))
    ∧ (∀ t, agents (jsToLower ta2) = some t →
      (communicateExec agents runA ta2 message m ts).2.conversationHistory =
        m.conversationHistory ++
          [HistoryEntry.mk ta2 (MsgRec.mk message (runA t message)) ts]) := by
  refine ⟨?_, ?_, ?_⟩
  · intro h1 h2
    simp [communicateExec, jsIndex, h1, h2]
  · intro h1 h2
    simp [communicateExec, jsIndex, h1, h2]
  · intro t h
    simp [communicateExec, jsIndex, h, SharedMemory.addToHistory]

/-- Witness for C10: the unknown agent `Ghost` (not a prototype property)
yields the error string and an unchanged memory; the unknown agent
`Constructor` hits the prototype chain and throws; the known agent
`Writer` appends one history entry. -/
theorem communicate_missing_agent_witness :
    (communicateExec demoAgents (fun _ _ => "resp") "Ghost" "hi"
        (SharedMemory.mk [] [] : SharedMemory Nat MsgRec) "t0" =
      (Except.ok ("Error: Agent \"" ++ "Ghost" ++ "\" not found"),
        SharedMemory.mk [] []))
    ∧ (communicateExec demoAgents (fun _ _ => "resp") "Constructor" "hi"
        (SharedMemory.mk [] [] : SharedMemory Nat MsgRec) "t0" =
      (Except.error ("TypeError: target.run is not a function"),
        SharedMemory.mk [] []))
    ∧ ((communicateExec demoAgents (fun _ _ => "resp") "Writer" "hi"
        (SharedMemory.mk [] [] : SharedMemory Nat MsgRec) "t0").2.conversationHistory =
      [] ++ [HistoryEntry.mk ("Writer") (MsgRec.mk ("hi") "resp") "t0"]) :=
  ⟨(communicate_missing_agent Unit Nat demoAgents (fun _ _ => "resp")
      "Ghost" "Writer" "Constructor" "hi" (SharedMemory.mk [] []) "t0").1
      (by decide) (by decide),
    (communicate_missing_agent Unit Nat demoAgents (fun _ _ => "resp")
      "Ghost" "Writer" "Constructor" "hi" (SharedMemory.mk [] []) "t0").2.1
      (by decide) (by decide),
    (communicate_missing_agent Unit Nat demoAgents (fun _ _ => "resp")
      "Ghost" "Writer" "Constructor" "hi" (SharedMemory.mk [] []) "t0").2.2
      () (by decide)⟩

end Aegent
